import Mathlib

/-!
Verification development for the Didi scanner (`src/main.py`).

The program is a single-file market scanner: it fetches candle data with a
bounded retry loop (`fetch_klines`), computes indicators (`sma`, `adx`,
`bollinger_width`), derives a per-instrument signal (`check_signal`), and runs
an alert loop (`scanner_loop`) with a per-symbol de-duplication memory
(`LAST_SIGNAL`) and a cooperative shutdown flag (`SHUTDOWN`).

Modelling decisions, shared by everything below:

* Scalar values are modelled exactly, as rational numbers represented by an
  integer numerator and positive integer denominator (`Val`), *not* normalised;
  all observations on them (equality, order) go through cross-multiplication
  (`Val.beq`, `Val.blt`), so the representation is observationally the
  rationals.  Floating-point rounding of the source is idealised away; the
  claims treated here are structural (NaN propagation, control flow, ordering),
  not about rounding.
* A missing value (IEEE NaN, produced by pandas during rolling warm-up, `diff`/
  `shift`, or by `replace(0, np.nan)`) is modelled as `none` in `Option Val`.
  Comparisons involving NaN are false in the source; `oLt` mirrors that.
* Division by zero yields ±inf (or NaN for 0/0) in the source; every such
  result is collapsed to `none` here (see `oDiv`).  In the source these can
  arise only from a zero ATR or a zero price, and every downstream use first
  tests the guards modelled here.
* `math.sqrt` (used implicitly by `pandas.Series.std`) is abstracted as an
  explicit function parameter `sq : Val → Val`; every theorem quantifies over
  it.
* A pandas `Series` is modelled as a total map `ℕ → Option Val`; reading
  outside the frame's range gives `none`.  The frame length is carried
  separately where the source uses `len(df)` or `.iloc` negative indexing.
-/

namespace Didi

/-- An exact numeric scalar: integer numerator over (by construction positive)
integer denominator, deliberately not normalised so that all arithmetic is
kernel-computable.  Observations use cross-multiplication. -/
structure Val where
  num : ℤ
  den : ℤ
deriving DecidableEq, Repr

def Val.ofInt (n : ℤ) : Val := ⟨n, 1⟩

def Val.ofNat (n : ℕ) : Val := ⟨(n : ℤ), 1⟩

def Val.add (a b : Val) : Val := ⟨a.num * b.den + b.num * a.den, a.den * b.den⟩

def Val.sub (a b : Val) : Val := ⟨a.num * b.den - b.num * a.den, a.den * b.den⟩

def Val.mul (a b : Val) : Val := ⟨a.num * b.num, a.den * b.den⟩

def Val.neg (a : Val) : Val := ⟨-a.num, a.den⟩

/-- Absolute value (`abs` in the source). -/
def Val.abs (a : Val) : Val := ⟨|a.num|, a.den⟩

/-- Exact division.  The sign of the divisor's numerator is moved up so the
denominator stays positive.  Callers guard the divisor against zero (`oDiv`). -/
def Val.div (a b : Val) : Val :=
  if 0 ≤ b.num then ⟨a.num * b.den, a.den * b.num⟩
  else ⟨-(a.num * b.den), a.den * (-b.num)⟩

/-- Strict order by cross-multiplication (valid for positive denominators). -/
def Val.blt (a b : Val) : Bool := decide (a.num * b.den < b.num * a.den)

/-- Equality test by cross-multiplication. -/
def Val.beq (a b : Val) : Bool := a.num * b.den == b.num * a.den

/-- Binary maximum, as used by `clip(lower=...)` and row-wise `max`. -/
def Val.vmax (a b : Val) : Val := if Val.blt a b then b else a

/-- A float cell: `none` is NaN / missing. -/
abbrev OptV := Option Val

def oAdd : OptV → OptV → OptV
  | some a, some b => some (Val.add a b)
  | _, _ => none

def oSub : OptV → OptV → OptV
  | some a, some b => some (Val.sub a b)
  | _, _ => none

def oMul : OptV → OptV → OptV
  | some a, some b => some (Val.mul a b)
  | _, _ => none

def oNeg : OptV → OptV
  | some a => some (Val.neg a)
  | none => none

def oAbs : OptV → OptV
  | some a => some (Val.abs a)
  | none => none

/-- Division on cells.  NaN operands propagate; a zero divisor (which in the
floating-point source would give ±inf or NaN) is collapsed to `none`. -/
def oDiv : OptV → OptV → OptV
  | some a, some b => if Val.beq b (Val.ofInt 0) then none else some (Val.div a b)
  | _, _ => none

/-- `<` on cells: false whenever either side is NaN, as in IEEE comparisons. -/
def oLt : OptV → OptV → Bool
  | some a, some b => Val.blt a b
  | _, _ => false

/-- `>` on cells. -/
def oGt (a b : OptV) : Bool := oLt b a

/-- Row-wise maximum with pandas `skipna=True`: NaN cells are ignored, the
result is NaN only when every cell is NaN. -/
def oMax : OptV → OptV → OptV
  | some a, some b => some (Val.vmax a b)
  | some a, none => some a
  | none, x => x

/-- `clip(lower=0)`: NaN stays NaN, values are floored at 0. -/
def oClip0 : OptV → OptV
  | some a => some (Val.vmax a (Val.ofInt 0))
  | none => none

/-- Cell equality used only in theorem statements (values compared as
rationals; two NaNs are identified). -/
def oBeq : OptV → OptV → Bool
  | some a, some b => Val.beq a b
  | none, none => true
  | _, _ => false

/-- A pandas series of floats: index to cell, `none` outside the frame. -/
abbrev Series := ℕ → OptV

/-- A series holding the given (non-NaN) values. -/
def listSeries (xs : List Val) : Series := fun i => xs.get? i

/-- `Series.shift()`: move every value one index later, NaN in front. -/
def shift1 (s : Series) : Series := fun i => if i = 0 then none else s (i - 1)

/-- `Series.diff()`: first difference, NaN in front. -/
def diff1 (s : Series) : Series := fun i => if i = 0 then none else oSub (s i) (s (i - 1))

/-- Whether the trailing window of size `p` ending at `i` exists and is free of
NaN.  pandas `rolling(p)` has `min_periods = p` by default, so a rolling
statistic is defined exactly when the window is complete and all `p` cells are
non-NaN. -/
def windowFull (p : ℕ) (s : Series) (i : ℕ) : Bool :=
  decide (p ≤ i + 1) && (List.range p).all fun j => (s (i - j)).isSome

/-- Sum of the trailing window of size `p` ending at `i` (missing cells read as
0; only used under `windowFull`). -/
def windowSum (p : ℕ) (s : Series) (i : ℕ) : Val :=
  ((List.range p).map fun j => (s (i - j)).getD (Val.ofInt 0)).foldr Val.add (Val.ofInt 0)

/-- `rolling(p).mean()` with default `min_periods`. -/
def rollingMean (p : ℕ) (s : Series) : Series := fun i =>
  if windowFull p s i then some (Val.div (windowSum p s i) (Val.ofNat p)) else none

/-- `rolling(p).sum()` with default `min_periods`. -/
def rollingSum (p : ℕ) (s : Series) : Series := fun i =>
  if windowFull p s i then some (windowSum p s i) else none

/-- `rolling(p).std()` with default `min_periods` and `ddof = 1`: the square
root (abstracted as `sq`) of the sample variance of the window.  With a full
window of one value the 0/0 of the source gives NaN, hence the `2 ≤ p` guard. -/
def rollingStd (sq : Val → Val) (p : ℕ) (s : Series) : Series := fun i =>
  if 2 ≤ p ∧ windowFull p s i then
    some (sq (Val.div
      (((List.range p).map fun j =>
        let d := Val.sub ((s (i - j)).getD (Val.ofInt 0))
          (Val.div (windowSum p s i) (Val.ofNat p))
        Val.mul d d).foldr Val.add (Val.ofInt 0))
      (Val.ofNat (p - 1))))
  else none

/-- `sma(series, p) = series.rolling(p).mean()`  (src/main.py:192-193). -/
def sma (series : Series) (p : ℕ) : Series := rollingMean p series

/-- One kline row after the `astype(float)` conversions of `fetch_klines`;
`none` models a missing (NaN) cell.  Only the four columns the engine reads
are kept. -/
structure Candle where
  o : OptV
  h : OptV
  l : OptV
  c : OptV
deriving DecidableEq, Repr

/-- `df.dropna()`: keep the rows with no missing cell (src/main.py:227). -/
def dropna (df : List Candle) : List Candle :=
  df.filter fun r => r.o.isSome && r.h.isSome && r.l.isSome && r.c.isSome

def colHigh (df : List Candle) : Series := fun i => (df.get? i).bind Candle.h

def colLow (df : List Candle) : Series := fun i => (df.get? i).bind Candle.l

def colClose (df : List Candle) : Series := fun i => (df.get? i).bind Candle.c

/-- True range (src/main.py:198-202): row-wise max (NaN-skipping) of
`high - low`, `|high - close.shift()|`, `|low - close.shift()|`. -/
def trSeries (df : List Candle) : Series := fun i =>
  oMax (oMax (oSub (colHigh df i) (colLow df i))
             (oAbs (oSub (colHigh df i) (shift1 (colClose df) i))))
       (oAbs (oSub (colLow df i) (shift1 (colClose df) i)))

/-- `atr = tr.rolling(period).mean()` (src/main.py:204). -/
def atrSeries (df : List Candle) (period : ℕ) : Series := rollingMean period (trSeries df)

/-- `plus_dm = high.diff().clip(lower=0)` (src/main.py:206). -/
def plusDM (df : List Candle) : Series := fun i => oClip0 (diff1 (colHigh df) i)

/-- `minus_dm = (-low.diff()).clip(lower=0)` (src/main.py:207). -/
def minusDM (df : List Candle) : Series := fun i => oClip0 (oNeg (diff1 (colLow df) i))

/-- `plus_di = 100 * plus_dm.rolling(period).sum() / atr` (src/main.py:209). -/
def plusDI (df : List Candle) (period : ℕ) : Series := fun i =>
  oDiv (oMul (some (Val.ofInt 100)) (rollingSum period (plusDM df) i)) (atrSeries df period i)

/-- `minus_di = 100 * minus_dm.rolling(period).sum() / atr` (src/main.py:210). -/
def minusDI (df : List Candle) (period : ℕ) : Series := fun i =>
  oDiv (oMul (some (Val.ofInt 100)) (rollingSum period (minusDM df) i)) (atrSeries df period i)

/-- `plus_di + minus_di`, before the zero replacement. -/
def diSum (df : List Candle) (period : ℕ) : Series := fun i =>
  oAdd (plusDI df period i) (minusDI df period i)

/-- `den = (plus_di + minus_di).replace(0, np.nan)` (src/main.py:212): a value
equal to 0 becomes NaN. -/
def denSeries (df : List Candle) (period : ℕ) : Series := fun i =>
  match diSum df period i with
  | some v => if Val.beq v (Val.ofInt 0) then none else some v
  | none => none

/-- `dx = abs(plus_di - minus_di) / den * 100` (src/main.py:213). -/
def dxSeries (df : List Candle) (period : ℕ) : Series := fun i =>
  oMul (oDiv (oAbs (oSub (plusDI df period i) (minusDI df period i))) (denSeries df period i))
    (some (Val.ofInt 100))

/-- `adx(df, period=8)` returns `dx.rolling(period).mean()`
(src/main.py:195-215). -/
def adx (df : List Candle) (period : ℕ := 8) : Series := rollingMean period (dxSeries df period)

/-- `bollinger_width(series, period=8, std=2)` (src/main.py:217-220):
`(2 * std * sd) / ma.replace(0, np.nan)` where `ma`/`sd` are the rolling mean
and rolling standard deviation. -/
def bollinger_width (sq : Val → Val) (series : Series) (period : ℕ := 8) (std : Val := Val.ofInt 2) :
    Series := fun i =>
  let ma := rollingMean period series i
  let sd := rollingStd sq period series i
  oDiv (oMul (oMul (some (Val.ofInt 2)) (some std)) sd)
    (match ma with
     | some v => if Val.beq v (Val.ofInt 0) then none else some v
     | none => none)

/-- `ADX_MIN = 15` (src/main.py:41). -/
def ADX_MIN : Val := Val.ofInt 15

/-- `BB_WIDTH_MIN = 0.015` (src/main.py:42). -/
def BB_WIDTH_MIN : Val := ⟨15, 1000⟩

/-- A trading side; `check_signal` returns `"LONG"`, `"SHORT"` or `None`. -/
inductive Side where
  | long
  | short
deriving DecidableEq, Repr

/-- The local values `check_signal` reads from the indicator series
(src/main.py:231-267): the last three points of the three SMAs, the last
close (`price`), and the previous row's high and low.  `n` is `len(df)` after
`dropna`, so `iloc[-k]` is index `n - k`. -/
structure Snapshot where
  s3_3 : OptV
  s3_2 : OptV
  s3_1 : OptV
  s8_3 : OptV
  s8_2 : OptV
  s8_1 : OptV
  s20_1 : OptV
  price : OptV
  high2 : OptV
  low2 : OptV
deriving DecidableEq, Repr

/-- Reading the snapshot off the (already `dropna`-ed) frame. -/
def snapshot (df : List Candle) : Snapshot :=
  let n := df.length
  let close := colClose df
  let s3 := sma close 3
  let s8 := sma close 8
  let s20 := sma close 20
  { s3_3 := s3 (n - 3), s3_2 := s3 (n - 2), s3_1 := s3 (n - 1)
    s8_3 := s8 (n - 3), s8_2 := s8 (n - 2), s8_1 := s8 (n - 1)
    s20_1 := s20 (n - 1)
    price := close (n - 1)
    high2 := colHigh df (n - 2)
    low2 := colLow df (n - 2) }

/-- `slope3 = s3.iloc[-1] - s3.iloc[-2]` (src/main.py:264). -/
def slope3 (t : Snapshot) : OptV := oSub t.s3_1 t.s3_2

/-- `slope8 = s8.iloc[-1] - s8.iloc[-2]` (src/main.py:265). -/
def slope8 (t : Snapshot) : OptV := oSub t.s8_1 t.s8_2

/-- `min_slope = close.iloc[-1] * 0.0005` (src/main.py:266). -/
def minSlope (t : Snapshot) : OptV := oMul t.price (some ⟨5, 10000⟩)

/-- `cruzou_long` (src/main.py:269-272). -/
def cruzouLong (t : Snapshot) : Bool :=
  (oLt t.s3_3 t.s8_3 && oGt t.s3_2 t.s8_2) || (oLt t.s3_2 t.s8_2 && oGt t.s3_1 t.s8_1)

/-- `alinhamento_long = (s3_1 > s8_1 > s20_1)` (src/main.py:274). -/
def alinhamentoLong (t : Snapshot) : Bool := oGt t.s3_1 t.s8_1 && oGt t.s8_1 t.s20_1

/-- `inclinacao_long = (slope3 > min_slope and slope8 > 0)` (src/main.py:275). -/
def inclinacaoLong (t : Snapshot) : Bool :=
  oGt (slope3 t) (minSlope t) && oGt (slope8 t) (some (Val.ofInt 0))

/-- `separacao_ok = (abs(s3_1 - s8_1) / price) > 0.0005` (src/main.py:276,289). -/
def separacaoOK (t : Snapshot) : Bool :=
  oGt (oDiv (oAbs (oSub t.s3_1 t.s8_1)) t.price) (some ⟨5, 10000⟩)

/-- `rompimento = price > df["high"].iloc[-2]` (src/main.py:277). -/
def rompimentoLong (t : Snapshot) : Bool := oGt t.price t.high2

/-- The full LONG composite condition (src/main.py:279). -/
def longComposite (t : Snapshot) : Bool :=
  cruzouLong t && alinhamentoLong t && inclinacaoLong t && separacaoOK t && rompimentoLong t

/-- `cruzou_short` (src/main.py:282-285). -/
def cruzouShort (t : Snapshot) : Bool :=
  (oGt t.s3_3 t.s8_3 && oLt t.s3_2 t.s8_2) || (oGt t.s3_2 t.s8_2 && oLt t.s3_1 t.s8_1)

/-- `alinhamento_short = (s3_1 < s8_1 < s20_1)` (src/main.py:287). -/
def alinhamentoShort (t : Snapshot) : Bool := oLt t.s3_1 t.s8_1 && oLt t.s8_1 t.s20_1

/-- `inclinacao_short = (-slope3 > min_slope and slope8 < 0)` (src/main.py:288). -/
def inclinacaoShort (t : Snapshot) : Bool :=
  oGt (oNeg (slope3 t)) (minSlope t) && oLt (slope8 t) (some (Val.ofInt 0))

/-- `rompimento = price < df["low"].iloc[-2]` (src/main.py:290). -/
def rompimentoShort (t : Snapshot) : Bool := oLt t.price t.low2

/-- The full SHORT composite condition (src/main.py:292). -/
def shortComposite (t : Snapshot) : Bool :=
  cruzouShort t && alinhamentoShort t && inclinacaoShort t && separacaoOK t && rompimentoShort t

/-- The early-return guards of `check_signal` (src/main.py:228-261), folded
into one conjunction (each test is pure, so the sequence of early `return
None`s is equivalent to one conjoined gate):
`len(df) >= 50`; `len(adx_series) >= 3` (the ADX series has the frame's
length); not `pd.isna(adx_now)` and not `adx_now < ADX_MIN`; not
`adx_now < adx_prev`; not `pd.isna(bbw_now)` and not `bbw_now < BB_WIDTH_MIN`;
not `bbw_now < bbw_prev`. -/
def signalGates (sq : Val → Val) (df : List Candle) : Bool :=
  let n := df.length
  let adxS := adx df 8
  let bbw := bollinger_width sq (colClose df) 8 (Val.ofInt 2)
  decide (50 ≤ n) && decide (3 ≤ n) &&
  (adxS (n - 1)).isSome && !(oLt (adxS (n - 1)) (some ADX_MIN)) &&
  !(oLt (adxS (n - 1)) (adxS (n - 2))) &&
  (bbw (n - 1)).isSome && !(oLt (bbw (n - 1)) (some BB_WIDTH_MIN)) &&
  !(oLt (bbw (n - 1)) (bbw (n - 2)))

/-- `check_signal(df)` (src/main.py:225-295): drop NaN rows, run the gates,
then test the LONG composite first and the SHORT composite only if the LONG
branch did not return. -/
def check_signal (sq : Val → Val) (df0 : List Candle) : Option Side :=
  let df := dropna df0
  if signalGates sq df then
    let t := snapshot df
    if longComposite t then some Side.long
    else if shortComposite t then some Side.short
    else none
  else none

/-- Instruments are identified by their position in `SYMBOLS`. -/
abbrev Symbol := ℕ

/-- One symbol's pass through the de-duplication tail of the loop body
(src/main.py:343-355): `sig = check_signal(df)`; `if not sig: continue`;
`last = LAST_SIGNAL.get(symbol)`; `if last == sig: continue`;
`send_alert(...)`; `LAST_SIGNAL[symbol] = sig`.  The boolean records whether
an alert was sent. -/
def stepDedup (last : Option Side) (sig : Option Side) : Option Side × Bool :=
  match sig with
  | none => (last, false)
  | some s => if last = some s then (last, false) else (some s, true)

/-- Iterating `stepDedup` over the detector outputs of successive cycles for
one instrument; returns the final memory and the per-cycle alert flags. -/
def runDedup : Option Side → List (Option Side) → Option Side × List Bool
  | last, [] => (last, [])
  | last, sig :: rest =>
    let st := stepDedup last sig
    let r := runDedup st.1 rest
    (r.1, st.2 :: r.2)

/-- Externally visible events of one cycle of `scanner_loop`. -/
inductive Ev where
  | errLogged (s : Symbol)
  | alertSent (s : Symbol) (side : Side)
deriving DecidableEq, Repr

/-- The body of `scanner_loop` for one symbol (src/main.py:337-358): a fetch
failure is caught by the per-symbol `except`, logged once, and leaves all
state alone; otherwise an empty frame is skipped, and the detector output is
fed through the de-duplication memory. -/
def processSymbol (sq : Val → Val) (fetched : Except Unit (List Candle)) (s : Symbol)
    (st : Symbol → Option Side) : (Symbol → Option Side) × List Ev :=
  match fetched with
  | .error _ => (st, [.errLogged s])
  | .ok df =>
    if df.isEmpty then (st, [])
    else
      match check_signal sq df with
      | none => (st, [])
      | some side =>
        if st s = some side then (st, [])
        else (Function.update st s (some side), [.alertSent s side])

/-- One full cycle of `scanner_loop` over the symbol list (src/main.py:336):
symbols are processed strictly in order, each against its fetch result. -/
def runCycle (sq : Val → Val) (fetched : Symbol → Except Unit (List Candle)) :
    List Symbol → (Symbol → Option Side) → (Symbol → Option Side) × List Ev
  | [], st => (st, [])
  | s :: rest, st =>
    let r1 := processSymbol sq (fetched s) s st
    let r2 := runCycle sq fetched rest r1.1
    (r2.1, r1.2 ++ r2.2)

/-- `HTTP_RETRIES = 3` (src/main.py:47). -/
def HTTP_RETRIES : ℕ := 3

/-- What one HTTP attempt of `fetch_klines` does: deliver a kline payload or
raise a transient `RequestException`. -/
inductive FetchOutcome where
  | ok (rows : List Candle)
  | fail
deriving DecidableEq, Repr

/-- The observables of one `fetch_klines` call: how many attempts ran, the
`time.sleep` delays performed (in seconds), and the outcome. -/
structure FetchTrace where
  attemptsMade : ℕ
  sleeps : List ℕ
  result : Except Unit (List Candle)
deriving Repr

/-- The retry loop of `fetch_klines` (src/main.py:159-187), starting at
`attempt` with `fuel` iterations of `range(HTTP_RETRIES)` left: a successful
attempt returns `df.iloc[:-1]` (the still-forming last candle dropped); a
transient failure logs, sleeps `2 * (attempt + 1)` seconds and retries;
running out of attempts raises `RuntimeError`. -/
def fetchFrom (oc : ℕ → FetchOutcome) : ℕ → ℕ → FetchTrace
  | _, 0 => ⟨0, [], .error ()⟩
  | attempt, fuel + 1 =>
    match oc attempt with
    | .ok rows => ⟨1, [], .ok rows.dropLast⟩
    | .fail =>
      let t := fetchFrom oc (attempt + 1) fuel
      ⟨t.attemptsMade + 1, 2 * (attempt + 1) :: t.sleeps, t.result⟩

/-- `fetch_klines` (src/main.py:154-187), abstracted over the outcome of each
HTTP attempt. -/
def fetch_klines (oc : ℕ → FetchOutcome) : FetchTrace := fetchFrom oc 0 HTTP_RETRIES

/-- The messages the process ever hands to `send_telegram`.  `shutdown` is in
the vocabulary so that its absence from every trace is expressible; no call
site in the source produces it. -/
inductive Msg where
  | startup
  | shutdown
deriving DecidableEq, Repr

/-- Externally visible events of `main`/`scanner_loop` at cycle granularity. -/
inductive LoopEv where
  | telegramMsg (m : Msg)
  | cycle (i : ℕ)
deriving DecidableEq, Repr

/-- The `while not SHUTDOWN` loop of `scanner_loop` (src/main.py:330-363) at
cycle granularity: the flag is read once per iteration, at the loop boundary;
an iteration whose read finds the flag set starts nothing further and falls
out of the loop.  `flag i` is the value of `SHUTDOWN` when iteration `i`
samples it; `fuel` bounds how many iterations are observed. -/
def scanner_trace (flag : ℕ → Bool) : ℕ → ℕ → List LoopEv
  | 0, _ => []
  | fuel + 1, i => if flag i then [] else LoopEv.cycle i :: scanner_trace flag fuel (i + 1)

/-- `main` (src/main.py:368-371): one startup notification, then the scanner
loop; nothing is sent after the loop returns. -/
def main_trace (flag : ℕ → Bool) (fuel : ℕ) : List LoopEv :=
  LoopEv.telegramMsg Msg.startup :: scanner_trace flag fuel 0

/-- Concrete frame: ten identical candles (open 1, high 10, low 5, close 7).
High and low never move, so both directional-movement sums are 0 while the
true range stays 5. -/
def flatDf : List Candle :=
  List.replicate 10 ⟨some (Val.ofInt 1), some (Val.ofInt 10), some (Val.ofInt 5), some (Val.ofInt 7)⟩

/-- Concrete close series 1, 2, 3, 4. -/
def exCloses : List Val := [Val.ofInt 1, Val.ofInt 2, Val.ofInt 3, Val.ofInt 4]

/-- A shutdown flag that an external signal sets between iteration 0 and
iteration 1. -/
def flagAfter1 : ℕ → Bool := fun i => decide (1 ≤ i)

/-- The identity, standing in for `math.sqrt` where a concrete function is
needed; no theorem depends on which function is chosen. -/
def sqId : Val → Val := fun v => v

theorem oDiv_none_right (x : OptV) : oDiv x none = none := by
  cases x <;> rfl

theorem oMul_none_left (x : OptV) : oMul none x = none := by
  cases x <;> rfl

theorem listSeries_isSome (xs : List Val) (k : ℕ) (hk : k < xs.length) :
    ((listSeries xs) k).isSome = true := by
  simp [listSeries, List.getElem?_eq_getElem hk]

/-- `runDedup` helper: once the memory holds `Long`, any run of cycles whose
detector outputs are only `None` or `Long` fires no alert and leaves the
memory at `Long`. -/
theorem runDedup_stuck (sigs : List (Option Side)) :
    (∀ x ∈ sigs, x = none ∨ x = some Side.long) →
    runDedup (some Side.long) sigs = (some Side.long, sigs.map fun _ => false) := by
  induction sigs with
  | nil => intro _; rfl
  | cons x rest ih =>
    intro h
    have hx := h x (List.mem_cons_self x rest)
    have hrest : ∀ y ∈ rest, y = none ∨ y = some Side.long :=
      fun y hy => h y (List.mem_cons_of_mem x hy)
    rcases hx with hx | hx <;> subst hx <;> simp [runDedup, stepDedup, ih hrest]

/-- C1, counterexample.  Detector outputs `Long`, then no signal (the
composite condition ceased to hold), then `Long` again: the source emits the
first alert only — the second `Long` breakout is suppressed because
`LAST_SIGNAL` is never cleared on a no-signal cycle (src/main.py:343-355 have
no reset branch). -/
theorem scanner_no_refire_after_gap :
    runDedup none [some Side.long, none, some Side.long] =
      (some Side.long, [true, false, false]) := by
  decide

/-- C1, amended: the last-signal memory is never cleared.  After an
`Alert(Long)`, every later cycle whose detector output is `None` or `Long`
fires nothing and leaves the memory at `Long`, however many no-signal cycles
intervene; a same-side alert can fire again only after an opposite-side
signal replaced the stored value. -/
theorem scanner_memory_never_cleared (sigs : List (Option Side))
    (h : ∀ x ∈ sigs, x = none ∨ x = some Side.long) :
    runDedup (some Side.long) sigs = (some Side.long, sigs.map fun _ => false) ∧
    stepDedup (some Side.short) (some Side.long) = (some Side.long, true) :=
  ⟨runDedup_stuck sigs h, by decide⟩

/-- C1, witness for the amended theorem at a concrete run. -/
theorem scanner_memory_never_cleared_witness :
    runDedup (some Side.long) [none, some Side.long] = (some Side.long, [false, false]) ∧
    stepDedup (some Side.short) (some Side.long) = (some Side.long, true) := by
  have h := scanner_memory_never_cleared [none, some Side.long] (by decide)
  simpa using h

/-- C2: per instrument and cycle, the de-duplication step sends an alert
exactly when the detector output is a side differing from the stored
last-emitted signal, and the stored value becomes that side; otherwise (no
signal, or same side as stored) nothing is sent and the memory is unchanged
(src/main.py:343-355). -/
theorem dedup_alert_iff_new_side (last sig : Option Side) :
    (stepDedup last sig).2 = (sig.isSome && !(sig == last)) ∧
    (stepDedup last sig).1 = (if sig = none ∨ sig = last then last else sig) := by
  cases sig with
  | none => simp [stepDedup]
  | some s =>
    by_cases h : last = some s
    · subst h
      simp [stepDedup]
    · simp [stepDedup, h, Ne.symm h]

/-- C3, counterexample.  `sma` is `rolling(p).mean()` with the default
`min_periods`, so with period 3 the first two positions of a 4-sample close
series are missing values, not partial-window means; the claim's
partial-window semantics would give the mean of 1 sample (1) at position 0. -/
theorem sma_warmup_is_nan :
    sma (listSeries exCloses) 3 0 = none ∧ sma (listSeries exCloses) 3 1 = none ∧
    oBeq (sma (listSeries exCloses) 3 2) (some (Val.ofInt 2)) = true := by
  decide

/-- C3, amended: over a NaN-free close series, `sma` with period `p` is
defined exactly at the positions with at least `p` trailing samples
(full-window semantics); earlier positions are missing values. -/
theorem sma_defined_iff_full_window (xs : List Val) (p i : ℕ) (_hp : 0 < p)
    (hi : i < xs.length) :
    (sma (listSeries xs) p i).isSome = decide (p ≤ i + 1) := by
  have hall : ((List.range p).all fun j => ((listSeries xs) (i - j)).isSome) = true := by
    rw [List.all_eq_true]
    intro j _
    exact listSeries_isSome xs (i - j) (lt_of_le_of_lt (Nat.sub_le i j) hi)
  by_cases hle : p ≤ i + 1
  · simp [sma, rollingMean, windowFull, hall, hle]
  · simp [sma, rollingMean, windowFull, hall, hle]

/-- C3, witness for the amended theorem: at period 3 and position 2 of a
3-sample series the SMA is defined. -/
theorem sma_defined_iff_full_window_witness :
    0 < 3 ∧ 2 < exCloses.length ∧
    (sma (listSeries exCloses) 3 2).isSome = decide (3 ≤ 2 + 1) :=
  ⟨by decide, by decide, sma_defined_iff_full_window exCloses 3 2 (by decide) (by decide)⟩

/-- C6: a window with fewer than 50 rows left after `dropna` produces no
signal (src/main.py:227-229), and feeding that no-signal through the loop's
de-duplication step sends no alert and leaves the memory unchanged
(src/main.py:344-345). -/
theorem insufficient_history_no_signal (sq : Val → Val) (df0 : List Candle)
    (last : Option Side) (h : (dropna df0).length < 50) :
    check_signal sq df0 = none ∧
    stepDedup last (check_signal sq df0) = (last, false) := by
  have h50 : ¬ (50 ≤ (dropna df0).length) := by omega
  have hg : signalGates sq (dropna df0) = false := by
    simp [signalGates, h50]
  have hc : check_signal sq df0 = none := by
    simp [check_signal, hg]
  exact ⟨hc, by simp [hc, stepDedup]⟩

/-- C6, witness at the empty frame. -/
theorem insufficient_history_no_signal_witness :
    (dropna []).length < 50 ∧ check_signal sqId [] = none ∧
    stepDedup (some Side.long) (check_signal sqId []) = (some Side.long, false) :=
  ⟨by decide, (insufficient_history_no_signal sqId [] (some Side.long) (by decide)).1,
    (insufficient_history_no_signal sqId [] (some Side.long) (by decide)).2⟩

/-- C4: `fetch_klines` makes at most `HTTP_RETRIES = 3` attempts and its
back-off sleeps are strictly increasing, whatever the attempt outcomes; when
all three attempts fail it performs exactly the sleeps 2, 4, 6 and raises one
`RuntimeError`; and `scanner_loop`'s per-symbol `except` turns that error
into exactly one logged error event for the failing symbol, leaving the state
untouched and processing the remaining symbols exactly as before
(src/main.py:159-187, 336-358). -/
theorem fetch_retry_bounded (oc : ℕ → FetchOutcome) (sq : Val → Val)
    (fetched : Symbol → Except Unit (List Candle)) (st : Symbol → Option Side)
    (s : Symbol) (rest : List Symbol)
    (h0 : oc 0 = FetchOutcome.fail) (h1 : oc 1 = FetchOutcome.fail)
    (h2 : oc 2 = FetchOutcome.fail) (hf : fetched s = Except.error ()) :
    (∀ oc2 : ℕ → FetchOutcome, (fetch_klines oc2).attemptsMade ≤ HTTP_RETRIES ∧
      List.Chain' (· < ·) (fetch_klines oc2).sleeps) ∧
    fetch_klines oc = ⟨3, [2, 4, 6], Except.error ()⟩ ∧
    runCycle sq fetched (s :: rest) st =
      ((runCycle sq fetched rest st).1,
        Ev.errLogged s :: (runCycle sq fetched rest st).2) := by
  refine ⟨fun oc2 => ?_, ?_, ?_⟩
  · cases ha : oc2 0 with
    | ok rows => simp [fetch_klines, fetchFrom, HTTP_RETRIES, ha]
    | fail =>
      cases hb : oc2 1 with
      | ok rows =>
        simp [fetch_klines, fetchFrom, HTTP_RETRIES, ha, hb, List.chain'_cons]
      | fail =>
        cases hc : oc2 2 with
        | ok rows =>
          simp [fetch_klines, fetchFrom, HTTP_RETRIES, ha, hb, hc, List.chain'_cons]
        | fail =>
          simp [fetch_klines, fetchFrom, HTTP_RETRIES, ha, hb, hc, List.chain'_cons]
  · simp [fetch_klines, fetchFrom, HTTP_RETRIES, h0, h1, h2]
  · simp [runCycle, processSymbol, hf]

/-- C4, witness: every attempt fails, one symbol, empty tail. -/
theorem fetch_retry_bounded_witness :
    (fun _ : ℕ => FetchOutcome.fail) 0 = FetchOutcome.fail ∧
    (fun _ : Symbol => (Except.error () : Except Unit (List Candle))) 0 = Except.error () ∧
    fetch_klines (fun _ => FetchOutcome.fail) = ⟨3, [2, 4, 6], Except.error ()⟩ ∧
    runCycle sqId (fun _ => Except.error ()) [0] (fun _ => none) =
      ((runCycle sqId (fun _ => Except.error ()) [] (fun _ => none)).1,
        Ev.errLogged 0 :: (runCycle sqId (fun _ => Except.error ()) [] (fun _ => none)).2) := by
  have h := fetch_retry_bounded (fun _ => FetchOutcome.fail) sqId
    (fun _ => Except.error ()) (fun _ => none) 0 [] rfl rfl rfl rfl
  exact ⟨rfl, rfl, h.2.1, h.2.2⟩

/-- C5: whenever some attempt of `fetch_klines` succeeds (the earlier ones
having failed transiently), the returned frame is the fetched payload minus
its last, still-forming row — `df.iloc[:-1]` (src/main.py:180); this frame is
what the loop hands to `check_signal`. -/
theorem fetch_drops_forming_candle (oc : ℕ → FetchOutcome) (rows : List Candle)
    (k : ℕ) (hk : k < HTTP_RETRIES) (hbefore : ∀ j, j < k → oc j = FetchOutcome.fail)
    (hsucc : oc k = FetchOutcome.ok rows) :
    (fetch_klines oc).result = Except.ok rows.dropLast := by
  have hk3 : k < 3 := hk
  interval_cases k
  · simp [fetch_klines, fetchFrom, HTTP_RETRIES, hsucc]
  · have g0 := hbefore 0 (by omega)
    simp [fetch_klines, fetchFrom, HTTP_RETRIES, g0, hsucc]
  · have g0 := hbefore 0 (by omega)
    have g1 := hbefore 1 (by omega)
    simp [fetch_klines, fetchFrom, HTTP_RETRIES, g0, g1, hsucc]

/-- C5, witness: failure then success on the second attempt. -/
theorem fetch_drops_forming_candle_witness :
    1 < HTTP_RETRIES ∧
    (fun j => if j = 0 then FetchOutcome.fail else FetchOutcome.ok flatDf) 1 =
      FetchOutcome.ok flatDf ∧
    (fetch_klines (fun j => if j = 0 then FetchOutcome.fail else FetchOutcome.ok flatDf)).result =
      Except.ok flatDf.dropLast :=
  ⟨by decide, by decide,
    fetch_drops_forming_candle (fun j => if j = 0 then FetchOutcome.fail else FetchOutcome.ok flatDf)
      flatDf 1 (by decide) (fun j hj => by interval_cases j; rfl) (by decide)⟩

/-- C7, counterexample.  On ten identical candles the directional-movement
sums are 0 while ATR is 5, so `+DI + -DI` is 0 at position 8; the source's
`replace(0, np.nan)` then makes `DX` a missing value there — not 0 as the
claim states — and the ADX rolling mean is missing in turn. -/
theorem dx_nan_on_zero_denominator :
    oBeq (diSum flatDf 8 8) (some (Val.ofInt 0)) = true ∧
    dxSeries flatDf 8 8 = none ∧ adx flatDf 8 9 = none := by
  decide

/-- C7, amended: whenever `+DI + -DI` is 0 at a position, `DX` at that
position is a missing value (NaN) — the denominator is replaced by NaN before
the division — and ADX is the rolling mean of `DX` over the period (hence
itself missing wherever its window touches such a position). -/
theorem dx_missing_iff_zero_denominator (df : List Candle) (p i : ℕ) (v : Val)
    (hv : diSum df p i = some v) (h0 : Val.beq v (Val.ofInt 0) = true) :
    dxSeries df p i = none ∧ adx df p = rollingMean p (dxSeries df p) := by
  have hden : denSeries df p i = none := by
    simp [denSeries, hv, h0]
  refine ⟨?_, rfl⟩
  rw [dxSeries, hden, oDiv_none_right, oMul_none_left]

/-- C7, witness for the amended theorem at the flat frame. -/
theorem dx_missing_iff_zero_denominator_witness :
    diSum flatDf 8 8 = some ((diSum flatDf 8 8).getD (Val.ofInt 0)) ∧
    Val.beq ((diSum flatDf 8 8).getD (Val.ofInt 0)) (Val.ofInt 0) = true ∧
    dxSeries flatDf 8 8 = none :=
  ⟨by decide, by decide,
    (dx_missing_iff_zero_denominator flatDf 8 8 ((diSum flatDf 8 8).getD (Val.ofInt 0))
      (by decide) (by decide)).1⟩

/-- `scanner_trace` helper: a cycle appears in the trace only if the shutdown
flag read at its boundary — and at every earlier boundary — was unset. -/
theorem scanner_trace_cycles (flag : ℕ → Bool) :
    ∀ (fuel start j : ℕ), LoopEv.cycle j ∈ scanner_trace flag fuel start →
      start ≤ j ∧ ∀ i, start ≤ i → i ≤ j → flag i = false := by
  intro fuel
  induction fuel with
  | zero =>
    intro start j h
    simp [scanner_trace] at h
  | succ m ih =>
    intro start j h
    by_cases hf : flag start
    · simp [scanner_trace, hf] at h
    · have hf0 : flag start = false := by simpa using hf
      simp only [scanner_trace, hf0, Bool.false_eq_true, if_false, List.mem_cons,
        LoopEv.cycle.injEq] at h
      rcases h with h | h
      · subst h
        exact ⟨le_refl j, fun i h1 h2 => by rw [le_antisymm h2 h1]; exact hf0⟩
      · have h3 := ih (start + 1) j h
        refine ⟨le_trans (Nat.le_succ start) h3.1, fun i h1 h2 => ?_⟩
        rcases Nat.eq_or_lt_of_le h1 with h4 | h4
        · rw [← h4]; exact hf0
        · exact h3.2 i h4 h2

/-- `scanner_trace` helper: the loop body itself sends no Telegram message at
cycle granularity (alerts live inside the opaque cycle events; the loop sends
nothing on exit). -/
theorem scanner_trace_no_msg (flag : ℕ → Bool) :
    ∀ (fuel start : ℕ) (m : Msg), LoopEv.telegramMsg m ∉ scanner_trace flag fuel start := by
  intro fuel
  induction fuel with
  | zero =>
    intro start m h
    simp [scanner_trace] at h
  | succ k ih =>
    intro start m h
    by_cases hf : flag start
    · simp [scanner_trace, hf] at h
    · have hf0 : flag start = false := by simpa using hf
      simp only [scanner_trace, hf0, Bool.false_eq_true, if_false, List.mem_cons] at h
      rcases h with h | h
      · exact LoopEv.noConfusion h
      · exact ih (start + 1) m h

/-- C8, counterexample.  With the shutdown flag set between iteration 0 and
iteration 1, the process trace is the startup message and the one in-flight
cycle: the loop exits cleanly but sends no final shutdown notification — no
call site in the source produces one (`handle_shutdown` only logs,
src/main.py:78-81, and `main` sends nothing after `scanner_loop` returns,
src/main.py:368-371) — contradicting the claim's "sends a final shutdown
notification". -/
theorem shutdown_sends_no_notification :
    main_trace flagAfter1 5 = [LoopEv.telegramMsg Msg.startup, LoopEv.cycle 0] ∧
    (main_trace flagAfter1 5).count (LoopEv.telegramMsg Msg.shutdown) = 0 := by
  decide

/-- C8, amended: the termination flag is read only at loop boundaries; a
cycle is started only when the flag was unset at its boundary and at every
earlier boundary (so no cycle starts after the flag is observed set, and the
in-flight cycle runs to completion); the loop then exits cleanly *without*
sending any shutdown notification. -/
theorem shutdown_flag_boundaries (flag : ℕ → Bool) (fuel j : ℕ)
    (hj : LoopEv.cycle j ∈ main_trace flag fuel) :
    (main_trace flag fuel).count (LoopEv.telegramMsg Msg.shutdown) = 0 ∧
    ∀ i, i ≤ j → flag i = false := by
  have hj2 : LoopEv.cycle j ∈ scanner_trace flag fuel 0 := by
    simpa [main_trace] using hj
  have h := scanner_trace_cycles flag fuel 0 j hj2
  constructor
  · rw [List.count_eq_zero]
    intro hmem
    simp only [main_trace, List.mem_cons] at hmem
    rcases hmem with h1 | h1
    · simp at h1
    · exact scanner_trace_no_msg flag fuel 0 Msg.shutdown h1
  · intro i hi
    exact h.2 i (Nat.zero_le i) hi

/-- C8, witness for the amended theorem at the concrete flag schedule. -/
theorem shutdown_flag_boundaries_witness :
    LoopEv.cycle 0 ∈ main_trace flagAfter1 5 ∧
    (main_trace flagAfter1 5).count (LoopEv.telegramMsg Msg.shutdown) = 0 ∧
    flagAfter1 0 = false :=
  ⟨by decide, (shutdown_flag_boundaries flagAfter1 5 0 (by decide)).1,
    (shutdown_flag_boundaries flagAfter1 5 0 (by decide)).2 0 (le_refl 0)⟩

/-- C9: the indicator functions are deterministic — two runs on equal candle
windows / close series and equal configuration give equal output series.  (In
this embedding they are pure functions of their arguments; the source's
pandas pipeline allocates fresh series and never writes to its input.) -/
theorem indicators_deterministic (df1 df2 : List Candle) (s1 s2 : Series)
    (p : ℕ) (k : Val) (sq : Val → Val) (hdf : df1 = df2) (hs : s1 = s2) :
    sma s1 p = sma s2 p ∧ adx df1 p = adx df2 p ∧
    bollinger_width sq s1 p k = bollinger_width sq s2 p k := by
  subst hdf
  subst hs
  exact ⟨rfl, rfl, rfl⟩

/-- C9, witness at concrete inputs. -/
theorem indicators_deterministic_witness :
    flatDf = flatDf ∧
    (sma (listSeries exCloses) 8 = sma (listSeries exCloses) 8 ∧
      adx flatDf 8 = adx flatDf 8 ∧
      bollinger_width sqId (listSeries exCloses) 8 (Val.ofInt 2) =
        bollinger_width sqId (listSeries exCloses) 8 (Val.ofInt 2)) :=
  ⟨rfl, indicators_deterministic flatDf flatDf (listSeries exCloses) (listSeries exCloses)
    8 (Val.ofInt 2) sqId rfl rfl⟩

theorem oGt_oLt_exclusive (a b : OptV) : (oGt a b && oLt a b) = false := by
  cases a with
  | none => cases b <;> rfl
  | some x =>
    cases b with
    | none => rfl
    | some y =>
      cases hlt : decide (y.num * x.den < x.num * y.den) with
      | false => simp [oGt, oLt, Val.blt, hlt]
      | true =>
        have hyx : y.num * x.den < x.num * y.den := of_decide_eq_true hlt
        have hxy : ¬ (x.num * y.den < y.num * x.den) := fun hc => lt_asymm hyx hc
        simp [oGt, oLt, Val.blt, hlt, hxy]

/-- The LONG and SHORT composite conditions can never hold on the same
snapshot: LONG alignment requires `s3_1 > s8_1` while SHORT alignment
requires `s3_1 < s8_1`. -/
theorem composites_exclusive (t : Snapshot) :
    (longComposite t && shortComposite t) = false := by
  have h := oGt_oLt_exclusive t.s3_1 t.s8_1
  cases hg : oGt t.s3_1 t.s8_1 with
  | false => simp [longComposite, alinhamentoLong, hg]
  | true =>
    have hl : oLt t.s3_1 t.s8_1 = false := by
      rw [hg] at h
      simpa using h
    simp [shortComposite, alinhamentoShort, hl]

/-- C10: the LONG and SHORT composite conditions are mutually exclusive, so
any window on which both held would (vacuously) return LONG; and the LONG
branch is decided first: whenever the gates pass and the LONG composite
holds, `check_signal` returns LONG without the SHORT branch being consulted
(src/main.py:279-293). -/
theorem long_branch_first (sq : Val → Val) (df0 : List Candle) :
    (longComposite (snapshot (dropna df0)) && shortComposite (snapshot (dropna df0))) = false ∧
    ((longComposite (snapshot (dropna df0)) && shortComposite (snapshot (dropna df0))) = false ∨
      check_signal sq df0 = some Side.long) ∧
    ((signalGates sq (dropna df0) && longComposite (snapshot (dropna df0))) = false ∨
      check_signal sq df0 = some Side.long) := by
  refine ⟨composites_exclusive _, Or.inl (composites_exclusive _), ?_⟩
  by_cases hg : signalGates sq (dropna df0)
  · by_cases hl : longComposite (snapshot (dropna df0))
    · right
      simp [check_signal, hg, hl]
    · left
      simp [hl]
  · left
    simp [hg]

end Didi
